import Mathlib

/-!
Shallow embedding of the Basketball Monster server (`server.js`) alert
fan-out and notification-history pipeline.

The SQL stores (`devices`, `user_alerts`, `notifications`, `valid_codes`)
are modelled as in-memory lists of rows; `GETDATE()` timestamps are a
`now : Nat` parameter; `uuidv4()` alert / registration ids are parameters
(with freshness hypotheses where the code relies on uuid uniqueness or on
the SQL `UNIQUE` constraint); SQL string comparison (`WHERE col = @v`) is
modelled as exact string equality.  JavaScript string falsiness
(`undefined` / `""` are falsy) is modelled explicitly: fields the code
tests with `!x` or `x || alt` are `Option String` with `some ""` falsy.
A thrown per-recipient storage error (the `catch` inside the recipient
loop) is modelled by an oracle `dbFail : Nat → Bool` indexed by recipient
position, and a thrown gateway call by an oracle on chunks.
-/

namespace BasketballMonster

/-- A row of the `devices` table. -/
structure DeviceRow where
  code : String
  pushToken : String
  registrationId : String
  timestamp : Nat
deriving DecidableEq

/-- A row of the `user_alerts` table (PerUserAlert). -/
structure UserAlertRow where
  alert_id : String
  user_code : String
  title : String
  status : String
  status_color : String
  alert_level : String
  details : String
  teams_affected : Nat
  sent_at : Nat
  updated_at : Nat
  is_deleted : Bool
deriving DecidableEq

/-- A row of the `notifications` table (NotificationHistory). -/
structure NotificationRow where
  alert_id : String
  title : String
  status : String
  status_color : String
  alert_level : String
  details : String
  total_recipients : Nat
  sent_at : Nat
  updated_at : Nat
  is_deleted : Bool
deriving DecidableEq

/-- The database state: the four tables used by the pipeline. -/
structure DB where
  valid_codes : List (String × Nat)
  devices : List DeviceRow
  user_alerts : List UserAlertRow
  notifications : List NotificationRow
deriving DecidableEq

/-- `STATUS_COLORS` lookup table from `server.js`. -/
def STATUS_COLORS (status : String) : Option String :=
  if status = "Questionable" then some "#6699FFFF"
  else if status = "Injured" then some "#EF4444FF"
  else if status = "Starting" then some "#10B981FF"
  else if status = "Note" then some "#6B7280FF"
  else if status = "Doubtful" then some "#F97316FF"
  else if status = "Out" then some "#DC2626FF"
  else if status = "In Locker Room" then some "#F59E0BFF"
  else if status = "Playing" then some "#059669FF"
  else if status = "Off Injury Report" then some "#3B82F6FF"
  else none

/-- JavaScript truthiness of an optional string: `undefined` and `""` are falsy. -/
def strTruthy : Option String → Bool
  | some s => s ≠ ""
  | none => false

/-- JavaScript `o || alt` for an optional string operand. -/
def jsOrStr (o : Option String) (alt : String) : String :=
  if strTruthy o then o.getD "" else alt

/-- `status_color || STATUS_COLORS[status] || '#6B7280FF'` from `server.js`. -/
def finalStatusColor (status_color : Option String) (status : String) : String :=
  jsOrStr status_color (jsOrStr (STATUS_COLORS status) "#6B7280FF")

/-- JavaScript `toUpperCase()` modelled at the character level (basic latin),
so that it evaluates by kernel reduction. -/
def strToUpper (s : String) : String := ⟨s.data.map Char.toUpper⟩

/-- JavaScript `toLowerCase()` modelled at the character level (basic latin). -/
def strToLower (s : String) : String := ⟨s.data.map Char.toLower⟩

/-- JavaScript `substring(0, n)` modelled at the character level. -/
def strTake (s : String) (n : Nat) : String := ⟨s.data.take n⟩

/-- JavaScript `startsWith(p)` modelled at the character level. -/
def strStartsWith (s p : String) : Bool := p.data.isPrefixOf s.data

/-- JavaScript `trim()` modelled at the character level. -/
def strTrim (s : String) : String :=
  ⟨((s.data.dropWhile Char.isWhitespace).reverse.dropWhile Char.isWhitespace).reverse⟩

/-- `isValidPushToken` from `server.js`: `token && token.startsWith('ExponentPushToken[')`. -/
def isValidPushToken (token : String) : Bool :=
  token ≠ "" && strStartsWith token "ExponentPushToken["

/-- `getAlertEmoji` from `server.js`: case-insensitive table lookup with `📢` fallback. -/
def getAlertEmoji (level : String) : String :=
  let l := strToLower level
  if l = "low" then "ℹ️"
  else if l = "medium" then "⚠️"
  else if l = "high" then "🔥"
  else if l = "monster" then "🚨"
  else "📢"

/-- One entry of the broadcast request's `users` array.  A JavaScript
`teams_affected` that is absent is modelled as `0` (the code uses
`user.teams_affected > 0` and `user.teams_affected || 0`, which treat
`undefined` and `0` identically). -/
structure AlertUser where
  user_id : String
  teams_affected : Nat
deriving DecidableEq

/-- The broadcast request body of `POST /api/alert`. -/
structure AlertRequest where
  title : String
  status : String
  status_color : Option String
  alert_level : String
  details : Option String
  users : List AlertUser
deriving DecidableEq

/-- The `data` payload of a push message. -/
structure PushData where
  alert_id : String
  status : String
  alert_level : String
  title : String
  details : Option String
  teams_affected : Nat
deriving DecidableEq

/-- A push message as built in the recipient loop of `POST /api/alert`.
The Expo field named `to` is rendered `toToken` here (`to` is reserved in Lean). -/
structure PushMessage where
  toToken : String
  sound : String
  title : String
  body : String
  data : PushData
  priority : String
  channelId : String
deriving DecidableEq

/-- The notification body built in `server.js`:
`status`, then `[<n> teams]` when `teams_affected > 0`, then
`- <details truncated to 100 characters>` when `details` is truthy. -/
def notificationBody (status : String) (teams_affected : Nat) (details : Option String) : String :=
  let b := status
  let b := if teams_affected > 0 then b ++ " [" ++ toString teams_affected ++ " teams]" else b
  let b := if strTruthy details then b ++ " - " ++ strTake (details.getD "") 100 else b
  b

/-- The notification title built in `server.js`:
emoji, a space, `MONSTER ALERT - ` when the level is monster (case-insensitive),
then the broadcast title. -/
def notificationTitle (alert_level : String) (title : String) : String :=
  let t := getAlertEmoji alert_level ++ " "
  let t := if strToLower alert_level = "monster" then t ++ "MONSTER ALERT - " else t
  t ++ title

/-- `SELECT * FROM devices WHERE code = @code`, first row. -/
def findDevice (devices : List DeviceRow) (code : String) : Option DeviceRow :=
  devices.find? (fun d => d.code == code)

/-- The `user_alerts` row inserted for a resolved recipient: note the
`user_code` column receives `user.user_id` verbatim (no normalization). -/
def mkUserAlertRow (alert_id : String) (u : AlertUser) (title status color level : String)
    (details : Option String) (now : Nat) : UserAlertRow :=
  { alert_id := alert_id
    user_code := u.user_id
    title := title
    status := status
    status_color := color
    alert_level := level
    details := details.getD ""
    teams_affected := u.teams_affected
    sent_at := now
    updated_at := now
    is_deleted := false }

/-- The push message pushed onto `messages` for a resolved recipient. -/
def mkPushMessage (device : DeviceRow) (u : AlertUser) (alert_id : String)
    (title status level : String) (details : Option String) : PushMessage :=
  { toToken := device.pushToken
    sound := "default"
    title := notificationTitle level title
    body := notificationBody status u.teams_affected details
    data := { alert_id := alert_id, status := status, alert_level := level,
              title := title, details := details, teams_affected := u.teams_affected }
    priority := "high"
    channelId := "default" }

/-- Result of the per-recipient loop of `POST /api/alert`: the two counters,
the `user_alerts` rows inserted, and the `messages` array, all in input order. -/
structure LoopResult where
  successful : Nat
  failed : Nat
  rows : List UserAlertRow
  messages : List PushMessage
deriving DecidableEq

/-- The recipient loop of `POST /api/alert` (`for (const user of users)`).
`idx` is the position of the first remaining recipient; `dbFail idx` models a
storage error thrown inside the loop body for recipient `idx` (caught by the
per-recipient `catch`, which increments `failed` and continues). -/
def processUsers (devices : List DeviceRow) (alert_id : String)
    (title status color level : String) (details : Option String) (now : Nat)
    (dbFail : Nat → Bool) : List AlertUser → Nat → LoopResult
  | [], _ => { successful := 0, failed := 0, rows := [], messages := [] }
  | u :: rest, idx =>
    let r := processUsers devices alert_id title status color level details now dbFail rest (idx + 1)
    if dbFail idx then
      { r with failed := r.failed + 1 }
    else
      match findDevice devices (strToUpper u.user_id) with
      | none => { r with failed := r.failed + 1 }
      | some device =>
        { successful := r.successful + 1
          failed := r.failed
          rows := mkUserAlertRow alert_id u title status color level details now :: r.rows
          messages := mkPushMessage device u alert_id title status level details :: r.messages }

/-- Splits a list into consecutive chunks of size `n`. -/
def chunkList (n : Nat) (l : List α) : List (List α) :=
  if h : n = 0 ∨ l.isEmpty then []
  else l.take n :: chunkList n (l.drop n)
termination_by l.length
decreasing_by
  push_neg at h
  have hl : l ≠ [] := fun e => by simp [e] at h
  simp only [List.length_drop]
  exact Nat.sub_lt (List.length_pos.mpr hl) (Nat.pos_of_ne_zero h.1)

/-- Modelled from the spec: `expo.chunkPushNotifications` of the external Push
Dispatch Gateway SDK (not part of this repository) splits the pending batch
into gateway-imposed batch-size chunks; the Expo gateway batch size is 100. -/
def chunkPushNotifications (messages : List PushMessage) : List (List PushMessage) :=
  chunkList 100 messages

/-- The chunk dispatch loop of `POST /api/alert`: the whole
`for (const chunk of chunks) await expo.sendPushNotificationsAsync(chunk)`
loop sits inside a single `try`; `sendFails c` models the gateway call for
chunk `c` throwing.  Returns the chunks actually passed to the gateway: a
throw transfers control to the `catch` outside the loop, so the failing chunk
is the last one attempted. -/
def dispatchChunks (sendFails : List PushMessage → Bool) :
    List (List PushMessage) → List (List PushMessage)
  | [] => []
  | c :: rest => if sendFails c then [c] else c :: dispatchChunks sendFails rest

/-- The JSON response of `POST /api/alert`.  A 400 rejection carries
`success = false` and the error string; a 200 carries the counters. -/
structure AlertResponse where
  success : Bool
  error : Option String
  alert_id : Option String
  successful : Nat
  failed : Nat
  total : Nat
deriving DecidableEq

/-- Everything observable about one `POST /api/alert` call: the final
database state, the JSON response, the `messages` batch that was built, and
the chunks that were handed to the push gateway. -/
structure BroadcastOutcome where
  db : DB
  response : AlertResponse
  messages : List PushMessage
  dispatched : List (List PushMessage)
deriving DecidableEq

/-- The `POST /api/alert` handler from `server.js`.  `alert_id` stands for
the `uuidv4()` value, `now` for `GETDATE()`. -/
def sendAlert (db : DB) (req : AlertRequest) (alert_id : String) (now : Nat)
    (dbFail : Nat → Bool) (sendFails : List PushMessage → Bool) : BroadcastOutcome :=
  if req.title = "" ∨ req.status = "" ∨ req.alert_level = "" ∨ req.users = [] then
    { db := db
      response := { success := false, error := some "Missing required fields",
                    alert_id := none, successful := 0, failed := 0, total := 0 }
      messages := []
      dispatched := [] }
  else
    let color := finalStatusColor req.status_color req.status
    let lp := processUsers db.devices alert_id req.title req.status color
        req.alert_level req.details now dbFail req.users 0
    let dispatched :=
      if lp.messages = [] then []
      else dispatchChunks sendFails (chunkPushNotifications lp.messages)
    let notifRow : NotificationRow :=
      { alert_id := alert_id
        title := req.title
        status := req.status
        status_color := color
        alert_level := req.alert_level
        details := req.details.getD ""
        total_recipients := lp.successful
        sent_at := now
        updated_at := now
        is_deleted := false }
    { db := { db with
              user_alerts := db.user_alerts ++ lp.rows
              notifications := db.notifications ++ [notifRow] }
      response := { success := true, error := none, alert_id := some alert_id,
                    successful := lp.successful, failed := lp.failed,
                    total := req.users.length }
      messages := lp.messages
      dispatched := dispatched }

/-- The JSON response of `POST /api/register`. -/
structure RegisterResponse where
  success : Bool
  error : Option String
  registrationId : Option String
deriving DecidableEq

/-- The `POST /api/register` handler from `server.js`.  `registrationId`
stands for the `uuidv4()` value, `now` for `GETDATE()`. -/
def registerDevice (db : DB) (code pushToken : String) (registrationId : String)
    (now : Nat) : DB × RegisterResponse :=
  if code = "" ∨ pushToken = "" then
    (db, { success := false, error := some "code and pushToken are required",
           registrationId := none })
  else
    let upperCode := strToUpper (strTrim code)
    if (db.valid_codes.find? (fun vc => vc.1 == upperCode)).isNone then
      (db, { success := false, error := some "Invalid code. Contact administrator.",
             registrationId := none })
    else if ¬ isValidPushToken pushToken ∧ ¬ strStartsWith pushToken "simulator_token_" then
      (db, { success := false, error := some "Invalid push token format",
             registrationId := none })
    else
      let devices :=
        if (db.devices.find? (fun d => d.code == upperCode)).isSome then
          db.devices.map (fun d =>
            if d.code == upperCode then
              { d with pushToken := pushToken, registrationId := registrationId,
                       timestamp := now }
            else d)
        else
          db.devices ++ [{ code := upperCode, pushToken := pushToken,
                           registrationId := registrationId, timestamp := now }]
      ({ db with devices := devices },
       { success := true, error := none, registrationId := some registrationId })

/-- The update request body of `PUT /api/alerts/:alert_id`. -/
structure UpdateRequest where
  title : String
  status : String
  status_color : Option String
  alert_level : String
  details : Option String
deriving DecidableEq

/-- The `PUT /api/alerts/:alert_id` handler from `server.js`: one `UPDATE`
over each store, matching on `alert_id`; always answers success (absent a
storage-layer error). -/
def updateAlert (db : DB) (alert_id : String) (req : UpdateRequest) (now : Nat) :
    DB × Bool :=
  let color := finalStatusColor req.status_color req.status
  let det := req.details.getD ""
  ({ db with
     user_alerts := db.user_alerts.map (fun r =>
       if r.alert_id == alert_id then
         { r with title := req.title, status := req.status, status_color := color,
                  alert_level := req.alert_level, details := det, updated_at := now }
       else r)
     notifications := db.notifications.map (fun r =>
       if r.alert_id == alert_id then
         { r with title := req.title, status := req.status, status_color := color,
                  alert_level := req.alert_level, details := det, updated_at := now }
       else r) },
   true)

/-- The `DELETE /api/alerts/:alert_id` handler from `server.js`: sets
`is_deleted = 1` on every matching row of both stores; always answers
success (absent a storage-layer error). -/
def softDelete (db : DB) (alert_id : String) : DB × Bool :=
  ({ db with
     user_alerts := db.user_alerts.map (fun r =>
       if r.alert_id == alert_id then { r with is_deleted := true } else r)
     notifications := db.notifications.map (fun r =>
       if r.alert_id == alert_id then { r with is_deleted := true } else r) },
   true)

/-- The `GET /api/user/:code/alerts` handler from `server.js`:
`SELECT TOP 50 * FROM user_alerts WHERE user_code = @code AND is_deleted = 0
ORDER BY sent_at DESC` with `@code` the uppercased path parameter. -/
def listUserAlerts (db : DB) (codeParam : String) : List UserAlertRow :=
  let code := strToUpper codeParam
  ((db.user_alerts.filter (fun r => r.user_code == code && r.is_deleted == false)).insertionSort
    (fun a b => b.sent_at ≤ a.sent_at)).take 50

/-- Follows the specification's words: the level→emoji table
low→ℹ️, medium→⚠️, high→🔥, monster→🚨, otherwise 📢, case-insensitive. -/
def specLevelEmoji (level : String) : String :=
  if strToLower level = "low" then "ℹ️"
  else if strToLower level = "medium" then "⚠️"
  else if strToLower level = "high" then "🔥"
  else if strToLower level = "monster" then "🚨"
  else "📢"

/-- Follows the specification's words: push title =
the level's emoji, a space, `MONSTER ALERT - ` exactly when the level is
monster case-insensitively, then the broadcast title. -/
def specPushTitle (level title : String) : String :=
  specLevelEmoji level ++ " " ++
    (if strToLower level = "monster" then "MONSTER ALERT - " else "") ++ title

/-- Follows the specification's words: push body = the status, then
`[<teamsAffected> teams]` only when `teamsAffected` is positive, then
`- <details truncated to 100 characters>` only when details is present. -/
def specPushBody (status : String) (teamsAffected : Nat) (details : Option String) : String :=
  status ++
    (if 0 < teamsAffected then " [" ++ toString teamsAffected ++ " teams]" else "") ++
    (if strTruthy details then " - " ++ strTake (details.getD "") 100 else "")

/-- Follows the specification's words (amended for the observed loop
semantics): the chunks handed to the gateway are exactly those up to and
including the first chunk whose gateway call fails. -/
def specAttempted (sendFails : List PushMessage → Bool)
    (chunks : List (List PushMessage)) : List (List PushMessage) :=
  chunks.takeWhile (fun c => ! sendFails c) ++
    (chunks.dropWhile (fun c => ! sendFails c)).take 1

/-! Concrete fixtures used by witness and counterexample theorems. -/

def devW : DeviceRow :=
  { code := "ABC123", pushToken := "ExponentPushToken[xyz]",
    registrationId := "reg-1", timestamp := 0 }

def dbW : DB :=
  { valid_codes := [("ABC123", 1)], devices := [devW],
    user_alerts := [], notifications := [] }

def reqW : AlertRequest :=
  { title := "Player Out", status := "Out", status_color := none,
    alert_level := "monster", details := some "knee injury",
    users := [{ user_id := "ABC123", teams_affected := 2 },
              { user_id := "NOPE999", teams_affected := 0 }] }

def reqLowerW : AlertRequest :=
  { reqW with users := [{ user_id := "abc123", teams_affected := 2 }] }

def reqBadW : AlertRequest := { reqW with title := "" }

def updW : UpdateRequest :=
  { title := "Player Back", status := "Playing", status_color := none,
    alert_level := "low", details := none }

def noDbFail : Nat → Bool := fun _ => false

def noSendFail : List PushMessage → Bool := fun _ => false

def msgW1 : PushMessage :=
  mkPushMessage devW { user_id := "ABC123", teams_affected := 2 }
    "A1" "Player Out" "Out" "monster" (some "knee injury")

def msgW2 : PushMessage := { msgW1 with toToken := "ExponentPushToken[other]" }

def chunkW1 : List PushMessage := [msgW1]

def chunkW2 : List PushMessage := [msgW2]

def sendFailsW : List PushMessage → Bool := fun c => c == chunkW1

def rowW : UserAlertRow :=
  mkUserAlertRow "B1" { user_id := "ABC123", teams_affected := 2 }
    "Player Out" "Out" "#DC2626FF" "monster" (some "knee injury") 5

def notifW : NotificationRow :=
  { alert_id := "B1", title := "Player Out", status := "Out",
    status_color := "#DC2626FF", alert_level := "monster",
    details := "knee injury", total_recipients := 1,
    sent_at := 5, updated_at := 5, is_deleted := false }

def dbW2 : DB := { dbW with user_alerts := [rowW], notifications := [notifW] }

/-! Helper lemmas. -/

theorem map_eq_self_of_mem {α : Type} {f : α → α} {l : List α}
    (h : ∀ x ∈ l, f x = x) : l.map f = l := by
  induction l with
  | nil => rfl
  | cons a t ih =>
    simp only [List.map_cons, h a (List.mem_cons_self a t),
      ih (fun x hx => h x (List.mem_cons_of_mem a hx))]

theorem map_map_self {α : Type} {f : α → α} (hf : ∀ x, f (f x) = f x)
    (l : List α) : (l.map f).map f = l.map f := by
  rw [List.map_map]
  exact List.map_congr_left (fun x _ => hf x)

section ProcessUsers

variable (devices : List DeviceRow) (aid ti st co lv : String)
  (details : Option String) (now : Nat) (dbFail : Nat → Bool)

theorem processUsers_counts (users : List AlertUser) : ∀ (idx : Nat),
    (processUsers devices aid ti st co lv details now dbFail users idx).successful +
      (processUsers devices aid ti st co lv details now dbFail users idx).failed =
      users.length := by
  induction users with
  | nil => intro idx; rfl
  | cons u rest ih =>
    intro idx
    have h := ih (idx + 1)
    simp only [processUsers, List.length_cons]
    split
    · simp only []
      omega
    · split
      · simp only []
        omega
      · simp only []
        omega

theorem processUsers_rows_spec (users : List AlertUser) : ∀ (idx : Nat),
    ∀ row ∈ (processUsers devices aid ti st co lv details now dbFail users idx).rows,
      ∃ u ∈ users, (findDevice devices (strToUpper u.user_id)).isSome ∧
        row = mkUserAlertRow aid u ti st co lv details now := by
  induction users with
  | nil => intro idx row hrow; simp [processUsers] at hrow
  | cons u rest ih =>
    intro idx row hrow
    simp only [processUsers] at hrow
    split at hrow
    · obtain ⟨u', hu', h1, h2⟩ := ih (idx + 1) row hrow
      exact ⟨u', List.mem_cons_of_mem u hu', h1, h2⟩
    · split at hrow
      · obtain ⟨u', hu', h1, h2⟩ := ih (idx + 1) row hrow
        exact ⟨u', List.mem_cons_of_mem u hu', h1, h2⟩
      · rename_i device hdev
        simp only [List.mem_cons] at hrow
        rcases hrow with hrow | hrow
        · exact ⟨u, List.mem_cons_self u rest, by simp [hdev], hrow⟩
        · obtain ⟨u', hu', h1, h2⟩ := ih (idx + 1) row hrow
          exact ⟨u', List.mem_cons_of_mem u hu', h1, h2⟩

theorem processUsers_messages_spec (users : List AlertUser) : ∀ (idx : Nat),
    ∀ m ∈ (processUsers devices aid ti st co lv details now dbFail users idx).messages,
      ∃ u ∈ users, ∃ device, findDevice devices (strToUpper u.user_id) = some device ∧
        m = mkPushMessage device u aid ti st lv details := by
  induction users with
  | nil => intro idx m hm; simp [processUsers] at hm
  | cons u rest ih =>
    intro idx m hm
    simp only [processUsers] at hm
    split at hm
    · obtain ⟨u', hu', d, h1, h2⟩ := ih (idx + 1) m hm
      exact ⟨u', List.mem_cons_of_mem u hu', d, h1, h2⟩
    · split at hm
      · obtain ⟨u', hu', d, h1, h2⟩ := ih (idx + 1) m hm
        exact ⟨u', List.mem_cons_of_mem u hu', d, h1, h2⟩
      · rename_i device hdev
        simp only [List.mem_cons] at hm
        rcases hm with hm | hm
        · exact ⟨u, List.mem_cons_self u rest, device, hdev, hm⟩
        · obtain ⟨u', hu', d, h1, h2⟩ := ih (idx + 1) m hm
          exact ⟨u', List.mem_cons_of_mem u hu', d, h1, h2⟩

theorem processUsers_mem_row (hnf : ∀ i, dbFail i = false)
    (users : List AlertUser) : ∀ (idx : Nat) (u : AlertUser), u ∈ users →
    (findDevice devices (strToUpper u.user_id)).isSome →
    mkUserAlertRow aid u ti st co lv details now ∈
      (processUsers devices aid ti st co lv details now dbFail users idx).rows := by
  induction users with
  | nil => intro idx u hu; exact absurd hu (List.not_mem_nil u)
  | cons u' rest ih =>
    intro idx u hu hdev
    simp only [processUsers, hnf idx, Bool.false_eq_true, if_false]
    simp only [List.mem_cons] at hu
    rcases hu with rfl | hu
    · obtain ⟨d, hd⟩ := Option.isSome_iff_exists.mp hdev
      simp only [hd]
      exact List.mem_cons_self _ _
    · cases hdev' : findDevice devices (strToUpper u'.user_id) with
      | none => exact ih (idx + 1) u hu hdev
      | some d => exact List.mem_cons_of_mem _ (ih (idx + 1) u hu hdev)

theorem processUsers_mem_message (hnf : ∀ i, dbFail i = false)
    (users : List AlertUser) : ∀ (idx : Nat) (u : AlertUser) (device : DeviceRow),
    u ∈ users → findDevice devices (strToUpper u.user_id) = some device →
    mkPushMessage device u aid ti st lv details ∈
      (processUsers devices aid ti st co lv details now dbFail users idx).messages := by
  induction users with
  | nil => intro idx u d hu; exact absurd hu (List.not_mem_nil u)
  | cons u' rest ih =>
    intro idx u d hu hdev
    simp only [processUsers, hnf idx, Bool.false_eq_true, if_false]
    simp only [List.mem_cons] at hu
    rcases hu with rfl | hu
    · simp only [hdev]
      exact List.mem_cons_self _ _
    · cases hdev' : findDevice devices (strToUpper u'.user_id) with
      | none => exact ih (idx + 1) u d hu hdev
      | some d' => exact List.mem_cons_of_mem _ (ih (idx + 1) u d hu hdev)

theorem processUsers_failed_pos (users : List AlertUser) :
    ∀ (idx : Nat) (u : AlertUser), u ∈ users →
    findDevice devices (strToUpper u.user_id) = none →
    1 ≤ (processUsers devices aid ti st co lv details now dbFail users idx).failed := by
  induction users with
  | nil => intro idx u hu; exact absurd hu (List.not_mem_nil u)
  | cons u' rest ih =>
    intro idx u hu hnone
    simp only [processUsers]
    split
    · simp only []
      omega
    · simp only [List.mem_cons] at hu
      rcases hu with rfl | hu
      · simp only [hnone]
        omega
      · have := ih (idx + 1) u hu hnone
        split
        · simp only []
          omega
        · simp only []
          omega

end ProcessUsers

theorem sendAlert_valid_unfold (db : DB) (req : AlertRequest) (alert_id : String)
    (now : Nat) (dbFail : Nat → Bool) (sendFails : List PushMessage → Bool)
    (hcond : ¬(req.title = "" ∨ req.status = "" ∨ req.alert_level = "" ∨ req.users = [])) :
    sendAlert db req alert_id now dbFail sendFails =
      (let color := finalStatusColor req.status_color req.status
       let lp := processUsers db.devices alert_id req.title req.status color
           req.alert_level req.details now dbFail req.users 0
       { db := { db with
                 user_alerts := db.user_alerts ++ lp.rows
                 notifications := db.notifications ++
                   [{ alert_id := alert_id, title := req.title, status := req.status,
                      status_color := color, alert_level := req.alert_level,
                      details := req.details.getD "", total_recipients := lp.successful,
                      sent_at := now, updated_at := now, is_deleted := false }] }
         response := { success := true, error := none, alert_id := some alert_id,
                       successful := lp.successful, failed := lp.failed,
                       total := req.users.length }
         messages := lp.messages
         dispatched := if lp.messages = [] then []
           else dispatchChunks sendFails (chunkPushNotifications lp.messages) }) := by
  simp only [sendAlert, if_neg hcond]

theorem notificationTitle_eq_spec (level title : String) :
    notificationTitle level title = specPushTitle level title := by
  simp only [notificationTitle, specPushTitle, getAlertEmoji, specLevelEmoji]
  by_cases h : strToLower level = "monster" <;>
    simp [h, String.append_assoc, String.append_empty]

theorem notificationBody_eq_spec (status : String) (teams_affected : Nat)
    (details : Option String) :
    notificationBody status teams_affected details =
      specPushBody status teams_affected details := by
  simp only [notificationBody, specPushBody]
  by_cases h1 : 0 < teams_affected <;> by_cases h2 : strTruthy details <;>
    simp [h1, h2, String.append_assoc, String.append_empty] <;>
    rw [← String.append_assoc " teams]" " - ",
      show (" teams]" : String) ++ " - " = " teams] - " from rfl]

theorem mem_listUserAlerts_user_code (db : DB) (codeParam : String) (r : UserAlertRow)
    (h : r ∈ listUserAlerts db codeParam) : r.user_code = strToUpper codeParam := by
  simp only [listUserAlerts] at h
  have h1 := List.take_subset _ _ h
  rw [List.mem_insertionSort] at h1
  have h2 := (List.mem_filter.mp h1).2
  simp only [Bool.and_eq_true, beq_iff_eq] at h2
  exact h2.1

theorem dispatchChunks_eq_specAttempted (f : List PushMessage → Bool)
    (chunks : List (List PushMessage)) :
    dispatchChunks f chunks = specAttempted f chunks := by
  induction chunks with
  | nil => rfl
  | cons c rest ih =>
    by_cases h : f c
    · simp [dispatchChunks, specAttempted, h, List.takeWhile_cons, List.dropWhile_cons]
    · simp only [dispatchChunks, specAttempted, h, Bool.false_eq_true, if_false,
        List.takeWhile_cons, List.dropWhile_cons, Bool.not_false, if_true]
      rw [ih]
      simp [specAttempted]

theorem map_delete_idem_user (aid : String) (l : List UserAlertRow) :
    ((l.map (fun r => if r.alert_id == aid then { r with is_deleted := true } else r)).map
        (fun r => if r.alert_id == aid then { r with is_deleted := true } else r)) =
      l.map (fun r => if r.alert_id == aid then { r with is_deleted := true } else r) := by
  induction l with
  | nil => rfl
  | cons a t ih =>
    simp only [List.map_cons, ih]
    congr 1
    cases h : a.alert_id == aid <;> simp [h]

theorem map_delete_idem_notif (aid : String) (l : List NotificationRow) :
    ((l.map (fun r => if r.alert_id == aid then { r with is_deleted := true } else r)).map
        (fun r => if r.alert_id == aid then { r with is_deleted := true } else r)) =
      l.map (fun r => if r.alert_id == aid then { r with is_deleted := true } else r) := by
  induction l with
  | nil => rfl
  | cons a t ih =>
    simp only [List.map_cons, ih]
    congr 1
    cases h : a.alert_id == aid <;> simp [h]

theorem sendAlert_response_eq (db : DB) (req : AlertRequest) (alert_id : String)
    (now : Nat) (dbFail : Nat → Bool) (sendFails : List PushMessage → Bool)
    (hcond : ¬(req.title = "" ∨ req.status = "" ∨ req.alert_level = "" ∨ req.users = [])) :
    (sendAlert db req alert_id now dbFail sendFails).response =
      { success := true, error := none, alert_id := some alert_id
        successful := (processUsers db.devices alert_id req.title req.status
          (finalStatusColor req.status_color req.status) req.alert_level req.details
          now dbFail req.users 0).successful
        failed := (processUsers db.devices alert_id req.title req.status
          (finalStatusColor req.status_color req.status) req.alert_level req.details
          now dbFail req.users 0).failed
        total := req.users.length } := by
  rw [sendAlert_valid_unfold db req alert_id now dbFail sendFails hcond]

theorem sendAlert_user_alerts_eq (db : DB) (req : AlertRequest) (alert_id : String)
    (now : Nat) (dbFail : Nat → Bool) (sendFails : List PushMessage → Bool)
    (hcond : ¬(req.title = "" ∨ req.status = "" ∨ req.alert_level = "" ∨ req.users = [])) :
    (sendAlert db req alert_id now dbFail sendFails).db.user_alerts =
      db.user_alerts ++ (processUsers db.devices alert_id req.title req.status
        (finalStatusColor req.status_color req.status) req.alert_level req.details
        now dbFail req.users 0).rows := by
  rw [sendAlert_valid_unfold db req alert_id now dbFail sendFails hcond]

theorem sendAlert_notifications_eq (db : DB) (req : AlertRequest) (alert_id : String)
    (now : Nat) (dbFail : Nat → Bool) (sendFails : List PushMessage → Bool)
    (hcond : ¬(req.title = "" ∨ req.status = "" ∨ req.alert_level = "" ∨ req.users = [])) :
    (sendAlert db req alert_id now dbFail sendFails).db.notifications =
      db.notifications ++
        [{ alert_id := alert_id, title := req.title, status := req.status
           status_color := finalStatusColor req.status_color req.status
           alert_level := req.alert_level, details := req.details.getD ""
           total_recipients := (processUsers db.devices alert_id req.title req.status
             (finalStatusColor req.status_color req.status) req.alert_level req.details
             now dbFail req.users 0).successful
           sent_at := now, updated_at := now, is_deleted := false }] := by
  rw [sendAlert_valid_unfold db req alert_id now dbFail sendFails hcond]

theorem sendAlert_messages_eq (db : DB) (req : AlertRequest) (alert_id : String)
    (now : Nat) (dbFail : Nat → Bool) (sendFails : List PushMessage → Bool)
    (hcond : ¬(req.title = "" ∨ req.status = "" ∨ req.alert_level = "" ∨ req.users = [])) :
    (sendAlert db req alert_id now dbFail sendFails).messages =
      (processUsers db.devices alert_id req.title req.status
        (finalStatusColor req.status_color req.status) req.alert_level req.details
        now dbFail req.users 0).messages := by
  rw [sendAlert_valid_unfold db req alert_id now dbFail sendFails hcond]

/-! Claim theorems. -/

/-- C1: for every broadcast request that passes the preconditions (title,
status and alert level non-empty, recipients non-empty), the returned result
satisfies `successful + failed = total = length of the recipients list`. -/
theorem sendAlert_counts_invariant (db : DB) (req : AlertRequest) (alert_id : String)
    (now : Nat) (dbFail : Nat → Bool) (sendFails : List PushMessage → Bool)
    (ht : req.title ≠ "") (hs : req.status ≠ "") (hl : req.alert_level ≠ "")
    (hu : req.users ≠ []) :
    (sendAlert db req alert_id now dbFail sendFails).response.success = true ∧
    (sendAlert db req alert_id now dbFail sendFails).response.total = req.users.length ∧
    (sendAlert db req alert_id now dbFail sendFails).response.successful +
      (sendAlert db req alert_id now dbFail sendFails).response.failed =
      (sendAlert db req alert_id now dbFail sendFails).response.total := by
  have hcond : ¬(req.title = "" ∨ req.status = "" ∨ req.alert_level = "" ∨
      req.users = []) := by tauto
  rw [sendAlert_valid_unfold db req alert_id now dbFail sendFails hcond]
  exact ⟨rfl, rfl, processUsers_counts db.devices alert_id req.title req.status
    (finalStatusColor req.status_color req.status) req.alert_level req.details
    now dbFail req.users 0⟩

/-- Witness for C1: the two-recipient scenario broadcast gives
`successful + failed = total = 2`. -/
theorem sendAlert_counts_invariant_witness :
    (reqW.title ≠ "" ∧ reqW.status ≠ "" ∧ reqW.alert_level ≠ "" ∧ reqW.users ≠ []) ∧
    ((sendAlert dbW reqW "A1" 7 noDbFail noSendFail).response.success = true ∧
     (sendAlert dbW reqW "A1" 7 noDbFail noSendFail).response.total = reqW.users.length ∧
     (sendAlert dbW reqW "A1" 7 noDbFail noSendFail).response.successful +
       (sendAlert dbW reqW "A1" 7 noDbFail noSendFail).response.failed =
       (sendAlert dbW reqW "A1" 7 noDbFail noSendFail).response.total) :=
  ⟨by decide, sendAlert_counts_invariant dbW reqW "A1" 7 noDbFail noSendFail
    (by decide) (by decide) (by decide) (by decide)⟩

/-- C5: a broadcast request missing title, status or alert level, or with an
empty recipients list, is rejected with the validation error and has no side
effect: the stores are unchanged, no message is built and nothing is
dispatched. -/
theorem sendAlert_invalid_no_side_effects (db : DB) (req : AlertRequest)
    (alert_id : String) (now : Nat) (dbFail : Nat → Bool)
    (sendFails : List PushMessage → Bool)
    (h : req.title = "" ∨ req.status = "" ∨ req.alert_level = "" ∨ req.users = []) :
    sendAlert db req alert_id now dbFail sendFails =
      { db := db
        response := { success := false, error := some "Missing required fields",
                      alert_id := none, successful := 0, failed := 0, total := 0 }
        messages := []
        dispatched := [] } := by
  simp only [sendAlert, if_pos h]

/-- Witness for C5: the scenario request with an empty title is rejected and
leaves the database untouched. -/
theorem sendAlert_invalid_no_side_effects_witness :
    (reqBadW.title = "" ∨ reqBadW.status = "" ∨ reqBadW.alert_level = "" ∨
      reqBadW.users = []) ∧
    sendAlert dbW reqBadW "A1" 7 noDbFail noSendFail =
      { db := dbW
        response := { success := false, error := some "Missing required fields",
                      alert_id := none, successful := 0, failed := 0, total := 0 }
        messages := []
        dispatched := [] } :=
  ⟨by decide, sendAlert_invalid_no_side_effects dbW reqBadW "A1" 7 noDbFail noSendFail
    (by decide)⟩

/-- C7: `softDelete` is idempotent — deleting the same alert id twice leaves
both stores (and the reported result) identical to deleting it once. -/
theorem softDelete_idempotent (db : DB) (alert_id : String) :
    softDelete (softDelete db alert_id).1 alert_id = softDelete db alert_id := by
  simp only [softDelete]
  rw [map_delete_idem_user, map_delete_idem_notif]

/-- C8: `update` with an alert id present in neither store modifies zero rows
in both stores and still reports success. -/
theorem updateAlert_nonexistent_noop (db : DB) (alert_id : String)
    (req : UpdateRequest) (now : Nat)
    (h1 : ∀ r ∈ db.user_alerts, r.alert_id ≠ alert_id)
    (h2 : ∀ n ∈ db.notifications, n.alert_id ≠ alert_id) :
    updateAlert db alert_id req now = (db, true) := by
  obtain ⟨vc, dev, ua, nt⟩ := db
  simp only [updateAlert, Prod.mk.injEq, DB.mk.injEq]
  refine ⟨⟨trivial, trivial, ?_, ?_⟩, trivial⟩
  · exact map_eq_self_of_mem (fun r hr => by simp [h1 r hr])
  · exact map_eq_self_of_mem (fun n hn => by simp [h2 n hn])

/-- Witness for C8: updating alert id "ZZZ", absent from both stores, leaves
the populated database unchanged and reports success. -/
theorem updateAlert_nonexistent_noop_witness :
    ((∀ r ∈ dbW2.user_alerts, r.alert_id ≠ "ZZZ") ∧
     (∀ n ∈ dbW2.notifications, n.alert_id ≠ "ZZZ")) ∧
    updateAlert dbW2 "ZZZ" updW 9 = (dbW2, true) :=
  ⟨by decide, updateAlert_nonexistent_noop dbW2 "ZZZ" updW 9 (by decide) (by decide)⟩

/-- C2 (amended): a chunk dispatch error is logged only — it alters neither
the response counters nor the stores — but it aborts the dispatch loop: the
chunks handed to the gateway are exactly those up to and including the first
failing chunk, so chunks after a failure are not dispatched. -/
theorem sendAlert_chunk_error_semantics :
    (∀ (db : DB) (req : AlertRequest) (alert_id : String) (now : Nat)
        (dbFail : Nat → Bool) (f g : List PushMessage → Bool),
      (sendAlert db req alert_id now dbFail f).response =
        (sendAlert db req alert_id now dbFail g).response ∧
      (sendAlert db req alert_id now dbFail f).db =
        (sendAlert db req alert_id now dbFail g).db) ∧
    (∀ (f : List PushMessage → Bool) (chunks : List (List PushMessage)),
      dispatchChunks f chunks = specAttempted f chunks) := by
  constructor
  · intro db req alert_id now dbFail f g
    constructor <;> (unfold sendAlert; split <;> rfl)
  · exact dispatchChunks_eq_specAttempted

/-- C2 counterexample: a two-chunk sequence in which the first chunk's
gateway call fails; the second (subsequent) chunk is not dispatched, refuting
the claim that every subsequent chunk is still dispatched. -/
theorem sendAlert_chunk_error_cex :
    sendFailsW chunkW1 = true ∧
    chunkW2 ∉ dispatchChunks sendFailsW [chunkW1, chunkW2] := by
  decide

/-- C3: a broadcast recipient whose user code has no registered device is
counted in `failed`, gets no PerUserAlert row under the broadcast's alert id,
and processing continues with the next recipient (the loop result on
`u :: rest` is the result on `rest` with `failed` incremented — no abort). -/
theorem sendAlert_unresolved_recipient (db : DB) (req : AlertRequest)
    (alert_id : String) (now : Nat) (dbFail : Nat → Bool)
    (sendFails : List PushMessage → Bool) (u : AlertUser)
    (ht : req.title ≠ "") (hs : req.status ≠ "") (hl : req.alert_level ≠ "")
    (hu : req.users ≠ []) (humem : u ∈ req.users)
    (hnone : findDevice db.devices (strToUpper u.user_id) = none)
    (hfresh : ∀ r ∈ db.user_alerts, r.alert_id ≠ alert_id) :
    1 ≤ (sendAlert db req alert_id now dbFail sendFails).response.failed ∧
    (∀ row ∈ (sendAlert db req alert_id now dbFail sendFails).db.user_alerts,
      row.alert_id = alert_id → row.user_code ≠ u.user_id) ∧
    (∀ (rest : List AlertUser) (idx : Nat) (co : String),
      processUsers db.devices alert_id req.title req.status co req.alert_level
          req.details now dbFail (u :: rest) idx =
        { processUsers db.devices alert_id req.title req.status co req.alert_level
            req.details now dbFail rest (idx + 1) with
          failed := (processUsers db.devices alert_id req.title req.status co
            req.alert_level req.details now dbFail rest (idx + 1)).failed + 1 }) := by
  have hcond : ¬(req.title = "" ∨ req.status = "" ∨ req.alert_level = "" ∨
      req.users = []) := by tauto
  refine ⟨?_, ?_, ?_⟩
  · rw [sendAlert_response_eq db req alert_id now dbFail sendFails hcond]
    exact processUsers_failed_pos db.devices alert_id req.title req.status
      (finalStatusColor req.status_color req.status) req.alert_level req.details
      now dbFail req.users 0 u humem hnone
  · rw [sendAlert_user_alerts_eq db req alert_id now dbFail sendFails hcond]
    intro row hrow hid hcode
    rcases List.mem_append.mp hrow with h | h
    · exact hfresh row h hid
    · obtain ⟨u', hu', hsome, heq⟩ := processUsers_rows_spec db.devices alert_id
        req.title req.status (finalStatusColor req.status_color req.status)
        req.alert_level req.details now dbFail req.users 0 row h
      rw [heq] at hcode
      simp only [mkUserAlertRow] at hcode
      rw [hcode, hnone] at hsome
      simp at hsome
  · intro rest idx co
    simp only [processUsers, hnone, ite_self]

/-- Witness for C3: in the two-recipient scenario, "NOPE999" has no device:
`failed ≥ 1`, no row is written for it, and the loop equation holds. -/
theorem sendAlert_unresolved_recipient_witness :
    (reqW.title ≠ "" ∧ reqW.status ≠ "" ∧ reqW.alert_level ≠ "" ∧ reqW.users ≠ [] ∧
     ({ user_id := "NOPE999", teams_affected := 0 } : AlertUser) ∈ reqW.users ∧
     findDevice dbW.devices (strToUpper "NOPE999") = none ∧
     (∀ r ∈ dbW.user_alerts, r.alert_id ≠ "A1")) ∧
    (1 ≤ (sendAlert dbW reqW "A1" 7 noDbFail noSendFail).response.failed ∧
     (∀ row ∈ (sendAlert dbW reqW "A1" 7 noDbFail noSendFail).db.user_alerts,
       row.alert_id = "A1" →
         row.user_code ≠ ({ user_id := "NOPE999", teams_affected := 0 } : AlertUser).user_id) ∧
     (∀ (rest : List AlertUser) (idx : Nat) (co : String),
       processUsers dbW.devices "A1" reqW.title reqW.status co reqW.alert_level
           reqW.details 7 noDbFail ({ user_id := "NOPE999", teams_affected := 0 } :: rest) idx =
         { processUsers dbW.devices "A1" reqW.title reqW.status co reqW.alert_level
             reqW.details 7 noDbFail rest (idx + 1) with
           failed := (processUsers dbW.devices "A1" reqW.title reqW.status co
             reqW.alert_level reqW.details 7 noDbFail rest (idx + 1)).failed + 1 })) :=
  ⟨by decide,
   sendAlert_unresolved_recipient dbW reqW "A1" 7 noDbFail noSendFail
     { user_id := "NOPE999", teams_affected := 0 }
     (by decide) (by decide) (by decide) (by decide) (by decide) (by decide)
     (by decide)⟩

/-- C4: after a valid broadcast with a fresh alert id, exactly one
NotificationHistory row carries that alert id, and its `total_recipients`
equals the `successful` counter computed by the per-recipient loop. -/
theorem sendAlert_history_total (db : DB) (req : AlertRequest) (alert_id : String)
    (now : Nat) (dbFail : Nat → Bool) (sendFails : List PushMessage → Bool)
    (ht : req.title ≠ "") (hs : req.status ≠ "") (hl : req.alert_level ≠ "")
    (hu : req.users ≠ [])
    (hfresh : ∀ n ∈ db.notifications, n.alert_id ≠ alert_id) :
    ((sendAlert db req alert_id now dbFail sendFails).db.notifications.filter
        (fun n => n.alert_id == alert_id)).length = 1 ∧
    (∀ n ∈ (sendAlert db req alert_id now dbFail sendFails).db.notifications,
      n.alert_id = alert_id →
        n.total_recipients =
          (sendAlert db req alert_id now dbFail sendFails).response.successful) := by
  have hcond : ¬(req.title = "" ∨ req.status = "" ∨ req.alert_level = "" ∨
      req.users = []) := by tauto
  rw [sendAlert_notifications_eq db req alert_id now dbFail sendFails hcond,
    sendAlert_response_eq db req alert_id now dbFail sendFails hcond]
  constructor
  · rw [List.filter_append]
    have hnil : db.notifications.filter (fun n => n.alert_id == alert_id) = [] := by
      rw [List.filter_eq_nil_iff]
      intro n hn
      simp [hfresh n hn]
    rw [hnil]
    simp
  · intro n hn hid
    rcases List.mem_append.mp hn with h | h
    · exact absurd hid (hfresh n h)
    · simp only [List.mem_singleton] at h
      rw [h]

/-- Witness for C4: the scenario broadcast leaves exactly one `notifications`
row for alert id "A1", with `total_recipients` equal to `successful`. -/
theorem sendAlert_history_total_witness :
    (reqW.title ≠ "" ∧ reqW.status ≠ "" ∧ reqW.alert_level ≠ "" ∧ reqW.users ≠ [] ∧
     (∀ n ∈ dbW.notifications, n.alert_id ≠ "A1")) ∧
    (((sendAlert dbW reqW "A1" 7 noDbFail noSendFail).db.notifications.filter
        (fun n => n.alert_id == "A1")).length = 1 ∧
     (∀ n ∈ (sendAlert dbW reqW "A1" 7 noDbFail noSendFail).db.notifications,
       n.alert_id = "A1" →
         n.total_recipients =
           (sendAlert dbW reqW "A1" 7 noDbFail noSendFail).response.successful)) :=
  ⟨by decide,
   sendAlert_history_total dbW reqW "A1" 7 noDbFail noSendFail
     (by decide) (by decide) (by decide) (by decide) (by decide)⟩

/-- C6: every push message built by a valid broadcast has the spec's title
shape (level emoji, then `MONSTER ALERT - ` exactly for monster levels, then
the title) and body shape (status, then `[n teams]` only for positive
`teams_affected`, then `- details` truncated to 100 characters only when
details is present); and each resolved recipient's message is in the batch,
addressed to their stored push token. -/
theorem sendAlert_push_format (db : DB) (req : AlertRequest) (alert_id : String)
    (now : Nat) (dbFail : Nat → Bool) (sendFails : List PushMessage → Bool)
    (u : AlertUser) (device : DeviceRow)
    (ht : req.title ≠ "") (hs : req.status ≠ "") (hl : req.alert_level ≠ "")
    (hu : req.users ≠ []) (humem : u ∈ req.users)
    (hdev : findDevice db.devices (strToUpper u.user_id) = some device)
    (hnf : ∀ i, dbFail i = false) :
    (∃ m ∈ (sendAlert db req alert_id now dbFail sendFails).messages,
      m.toToken = device.pushToken ∧
      m.title = specPushTitle req.alert_level req.title ∧
      m.body = specPushBody req.status u.teams_affected req.details) ∧
    (∀ m ∈ (sendAlert db req alert_id now dbFail sendFails).messages,
      ∃ uu ∈ req.users,
        m.title = specPushTitle req.alert_level req.title ∧
        m.body = specPushBody req.status uu.teams_affected req.details) := by
  have hcond : ¬(req.title = "" ∨ req.status = "" ∨ req.alert_level = "" ∨
      req.users = []) := by tauto
  rw [sendAlert_messages_eq db req alert_id now dbFail sendFails hcond]
  constructor
  · exact ⟨mkPushMessage device u alert_id req.title req.status req.alert_level req.details,
      processUsers_mem_message db.devices alert_id req.title req.status
        (finalStatusColor req.status_color req.status) req.alert_level req.details
        now dbFail hnf req.users 0 u device humem hdev,
      rfl,
      by simp [mkPushMessage, notificationTitle_eq_spec],
      by simp [mkPushMessage, notificationBody_eq_spec]⟩
  · intro m hm
    obtain ⟨uu, huu, d, hd, heq⟩ := processUsers_messages_spec db.devices alert_id
      req.title req.status (finalStatusColor req.status_color req.status)
      req.alert_level req.details now dbFail req.users 0 m hm
    exact ⟨uu, huu,
      by rw [heq]; simp [mkPushMessage, notificationTitle_eq_spec],
      by rw [heq]; simp [mkPushMessage, notificationBody_eq_spec]⟩

/-- Witness for C6: in the scenario broadcast, the resolved recipient
"ABC123" gets a message addressed to the stored token whose title and body
have the specified shape. -/
theorem sendAlert_push_format_witness :
    (reqW.title ≠ "" ∧ reqW.status ≠ "" ∧ reqW.alert_level ≠ "" ∧ reqW.users ≠ [] ∧
     ({ user_id := "ABC123", teams_affected := 2 } : AlertUser) ∈ reqW.users ∧
     findDevice dbW.devices
       (strToUpper ({ user_id := "ABC123", teams_affected := 2 } : AlertUser).user_id) =
       some devW ∧
     (∀ i, noDbFail i = false)) ∧
    ((∃ m ∈ (sendAlert dbW reqW "A1" 7 noDbFail noSendFail).messages,
       m.toToken = devW.pushToken ∧
       m.title = specPushTitle reqW.alert_level reqW.title ∧
       m.body = specPushBody reqW.status
         ({ user_id := "ABC123", teams_affected := 2 } : AlertUser).teams_affected
         reqW.details) ∧
     (∀ m ∈ (sendAlert dbW reqW "A1" 7 noDbFail noSendFail).messages,
       ∃ uu ∈ reqW.users,
         m.title = specPushTitle reqW.alert_level reqW.title ∧
         m.body = specPushBody reqW.status uu.teams_affected reqW.details)) :=
  ⟨⟨by decide, by decide, by decide, by decide, by decide, by decide, fun _ => rfl⟩,
   sendAlert_push_format dbW reqW "A1" 7 noDbFail noSendFail
     { user_id := "ABC123", teams_affected := 2 } devW
     (by decide) (by decide) (by decide) (by decide) (by decide) (by decide)
     (fun _ => rfl)⟩

/-- C10 (implicit): the PerUserAlert row of a resolved recipient stores the
supplied user id verbatim, while the list-alerts-for-user query filters on
the uppercased code; hence for a recipient whose user id is not already
uppercase, the row written at send time is not returned by a subsequent
list query for that code. -/
theorem sendAlert_verbatim_code_not_listed (db : DB) (req : AlertRequest)
    (alert_id : String) (now : Nat) (dbFail : Nat → Bool)
    (sendFails : List PushMessage → Bool) (u : AlertUser)
    (ht : req.title ≠ "") (hs : req.status ≠ "") (hl : req.alert_level ≠ "")
    (hu : req.users ≠ []) (humem : u ∈ req.users)
    (hup : strToUpper u.user_id ≠ u.user_id)
    (hdev : (findDevice db.devices (strToUpper u.user_id)).isSome)
    (hnf : ∀ i, dbFail i = false) :
    ∃ row ∈ (sendAlert db req alert_id now dbFail sendFails).db.user_alerts,
      row.alert_id = alert_id ∧ row.user_code = u.user_id ∧
      row ∉ listUserAlerts (sendAlert db req alert_id now dbFail sendFails).db
        u.user_id := by
  have hcond : ¬(req.title = "" ∨ req.status = "" ∨ req.alert_level = "" ∨
      req.users = []) := by tauto
  refine ⟨mkUserAlertRow alert_id u req.title req.status
    (finalStatusColor req.status_color req.status) req.alert_level req.details now,
    ?_, rfl, rfl, ?_⟩
  · rw [sendAlert_user_alerts_eq db req alert_id now dbFail sendFails hcond]
    exact List.mem_append_right _ (processUsers_mem_row db.devices alert_id
      req.title req.status (finalStatusColor req.status_color req.status)
      req.alert_level req.details now dbFail hnf req.users 0 u humem hdev)
  · intro hmem
    have hcode := mem_listUserAlerts_user_code _ _ _ hmem
    simp only [mkUserAlertRow] at hcode
    exact hup hcode.symm

/-- Witness for C10: recipient "abc123" resolves against the device stored
under "ABC123", the row is written with user_code "abc123", and the list
query for "abc123" (uppercased to "ABC123") does not return it. -/
theorem sendAlert_verbatim_code_not_listed_witness :
    (reqLowerW.title ≠ "" ∧ reqLowerW.status ≠ "" ∧ reqLowerW.alert_level ≠ "" ∧
     reqLowerW.users ≠ [] ∧
     ({ user_id := "abc123", teams_affected := 2 } : AlertUser) ∈ reqLowerW.users ∧
     strToUpper ({ user_id := "abc123", teams_affected := 2 } : AlertUser).user_id ≠
       ({ user_id := "abc123", teams_affected := 2 } : AlertUser).user_id ∧
     (findDevice dbW.devices
       (strToUpper ({ user_id := "abc123", teams_affected := 2 } : AlertUser).user_id)).isSome ∧
     (∀ i, noDbFail i = false)) ∧
    (∃ row ∈ (sendAlert dbW reqLowerW "A1" 7 noDbFail noSendFail).db.user_alerts,
      row.alert_id = "A1" ∧
      row.user_code = ({ user_id := "abc123", teams_affected := 2 } : AlertUser).user_id ∧
      row ∉ listUserAlerts (sendAlert dbW reqLowerW "A1" 7 noDbFail noSendFail).db
        ({ user_id := "abc123", teams_affected := 2 } : AlertUser).user_id) :=
  ⟨⟨by decide, by decide, by decide, by decide, by decide, by decide, by decide,
    fun _ => rfl⟩,
   sendAlert_verbatim_code_not_listed dbW reqLowerW "A1" 7 noDbFail noSendFail
     { user_id := "abc123", teams_affected := 2 }
     (by decide) (by decide) (by decide) (by decide) (by decide) (by decide)
     (by decide) (fun _ => rfl)⟩

theorem nodup_append_singleton {α : Type} {l : List α} {a : α}
    (h : l.Nodup) (ha : a ∉ l) : (l ++ [a]).Nodup := by
  rw [List.nodup_append_comm, List.singleton_append]
  exact List.nodup_cons.mpr ⟨ha, h⟩

theorem devices_overwrite_codes (upper tok rid : String) (ts : Nat)
    (l : List DeviceRow) :
    (l.map (fun d => if d.code == upper then
        { d with pushToken := tok, registrationId := rid, timestamp := ts } else d)).map
      DeviceRow.code = l.map DeviceRow.code := by
  rw [List.map_map]
  exact List.map_congr_left (fun d _ => by by_cases h : d.code = upper <;> simp [h])

theorem devices_overwrite_find (upper tok rid : String) (ts : Nat)
    (l : List DeviceRow)
    (hex : (l.find? (fun d => d.code == upper)).isSome = true) :
    (l.map (fun d => if d.code == upper then
        { d with pushToken := tok, registrationId := rid, timestamp := ts } else d)).find?
      (fun d => d.code == upper) =
      some { code := upper, pushToken := tok, registrationId := rid,
             timestamp := ts } := by
  induction l with
  | nil => simp at hex
  | cons d t ih =>
    cases h : d.code == upper with
    | false =>
      have hex' : (t.find? (fun d => d.code == upper)).isSome = true := by
        rw [List.find?_cons_of_neg _ (by simp [h])] at hex
        exact hex
      rw [List.map_cons, if_neg (by simp [h]),
        List.find?_cons_of_neg _ (by simp [h])]
      exact ih hex'
    | true =>
      have hd : d.code = upper := by simpa using h
      rw [List.map_cons, if_pos h, List.find?_cons_of_pos _ (by simp [hd])]
      simp [hd]

theorem devices_append_find (upper tok rid : String) (ts : Nat)
    (l : List DeviceRow)
    (hnone : l.find? (fun d => d.code == upper) = none) :
    (l ++ [({ code := upper, pushToken := tok, registrationId := rid,
              timestamp := ts } : DeviceRow)]).find? (fun d => d.code == upper) =
      some { code := upper, pushToken := tok, registrationId := rid,
             timestamp := ts } := by
  rw [List.find?_append, hnone]
  simp

/-- C9: registering a device with a code known to the Code Registry and a
valid push destination always succeeds, returns the freshly generated
registration id, stores it (overwriting in place when the code is already
registered), and preserves the invariant of at most one device row per
normalized code. -/
theorem registerDevice_upsert (db : DB) (code pushToken regId : String) (now : Nat)
    (hc : code ≠ "")
    (htok : isValidPushToken pushToken = true ∨
      strStartsWith pushToken "simulator_token_" = true)
    (hvalid : (db.valid_codes.find? (fun vc => vc.1 == strToUpper (strTrim code))).isSome = true)
    (hnodup : (db.devices.map DeviceRow.code).Nodup) :
    (registerDevice db code pushToken regId now).2 =
      { success := true, error := none, registrationId := some regId } ∧
    ((registerDevice db code pushToken regId now).1.devices.map DeviceRow.code).Nodup ∧
    findDevice (registerDevice db code pushToken regId now).1.devices
        (strToUpper (strTrim code)) =
      some { code := strToUpper (strTrim code), pushToken := pushToken,
             registrationId := regId, timestamp := now } := by
  have hp : pushToken ≠ "" := by
    rcases htok with h | h
    · intro he
      rw [he] at h
      simp [isValidPushToken] at h
    · intro he
      rw [he] at h
      revert h
      decide
  obtain ⟨v, hv⟩ := Option.isSome_iff_exists.mp hvalid
  simp only [registerDevice]
  rw [if_neg (by tauto : ¬(code = "" ∨ pushToken = ""))]
  rw [if_neg (by simp [hv])]
  rw [if_neg (fun hcon => by rcases htok with h | h; exacts [hcon.1 h, hcon.2 h])]
  by_cases hex : (db.devices.find? (fun d => d.code == strToUpper (strTrim code))).isSome = true
  · rw [if_pos hex]
    refine ⟨rfl, ?_, ?_⟩
    · rw [devices_overwrite_codes]
      exact hnodup
    · simp only [findDevice]
      exact devices_overwrite_find _ _ _ _ _ hex
  · rw [if_neg hex]
    have hnone : db.devices.find? (fun d => d.code == strToUpper (strTrim code)) = none :=
      Option.not_isSome_iff_eq_none.mp hex
    have hmem : strToUpper (strTrim code) ∉ db.devices.map DeviceRow.code := by
      intro hmem
      obtain ⟨d, hd, he⟩ := List.mem_map.mp hmem
      exact (List.find?_eq_none.mp hnone) d hd (by simp [he])
    refine ⟨rfl, ?_, ?_⟩
    · rw [List.map_append]
      exact nodup_append_singleton hnodup (by simpa using hmem)
    · simp only [findDevice]
      exact devices_append_find _ _ _ _ _ hnone

/-- Witness for C9: registering "abc123 " (trimmed and uppercased to the
known code "ABC123", already registered) with a fresh id overwrites the
stored row in place. -/
theorem registerDevice_upsert_witness :
    (("abc123 " : String) ≠ "" ∧
     (isValidPushToken "ExponentPushToken[new]" = true ∨
       strStartsWith "ExponentPushToken[new]" "simulator_token_" = true) ∧
     (dbW.valid_codes.find? (fun vc => vc.1 == strToUpper (strTrim "abc123 "))).isSome = true ∧
     (dbW.devices.map DeviceRow.code).Nodup) ∧
    ((registerDevice dbW "abc123 " "ExponentPushToken[new]" "reg-2" 3).2 =
       { success := true, error := none, registrationId := some "reg-2" } ∧
     ((registerDevice dbW "abc123 " "ExponentPushToken[new]" "reg-2" 3).1.devices.map
        DeviceRow.code).Nodup ∧
     findDevice (registerDevice dbW "abc123 " "ExponentPushToken[new]" "reg-2" 3).1.devices
         (strToUpper (strTrim "abc123 ")) =
       some { code := strToUpper (strTrim "abc123 "), pushToken := "ExponentPushToken[new]",
              registrationId := "reg-2", timestamp := 3 }) :=
  ⟨⟨by decide, by decide, by decide, by decide⟩,
   registerDevice_upsert dbW "abc123 " "ExponentPushToken[new]" "reg-2" 3
     (by decide) (by decide) (by decide) (by decide)⟩

end BasketballMonster
